import Mathlib

/-
Verification of the quote reconciliation, session-clock, caching and display
logic of src/app.py (a Streamlit market dashboard).  Python floats are
modelled as rationals, TWSE/yfinance date strings as natural numbers whose
order agrees with the ISO-date order, and the sentinel value given by the
upstream (the dash text for a missing trade price, an exception from the
transport) as Option.none.
-/

namespace StockApp

/-! ### Session clock: check_market_status (src/app.py lines 44-66) -/

inductive Market where
  | TW
  | US
deriving DecidableEq

inductive SessionStatus where
  | open_status
  | closed_status
deriving DecidableEq

/-- Embedding of check_market_status.  The wall clock is Asia/Taipei time,
given as python weekday (0 = Monday .. 6 = Sunday) and hour/minute/second.
The US branch looks only at now.hour; the TW branch compares now.time()
against dt_time(9,0) and dt_time(13,35) and checks now.weekday() >= 5. -/
def check_market_status (market : Market) (weekday hour minute second : ℕ) :
    SessionStatus :=
  match market with
  | Market.US =>
      if 21 ≤ hour ∨ hour < 5 then SessionStatus.open_status
      else SessionStatus.closed_status
  | Market.TW =>
      let t := hour * 3600 + minute * 60 + second
      if 5 ≤ weekday then SessionStatus.closed_status
      else if 9 * 3600 ≤ t ∧ t ≤ 13 * 3600 + 35 * 60 then SessionStatus.open_status
      else SessionStatus.closed_status

/-- The TW trading window exactly as claim C6 words it (weekday, 09:00-13:30);
stated for comparison with the code, which closes at 13:35. -/
def tw_claim_window (weekday hour minute second : ℕ) : Prop :=
  weekday < 5 ∧ 9 * 3600 ≤ hour * 3600 + minute * 60 + second ∧
    hour * 3600 + minute * 60 + second ≤ 13 * 3600 + 30 * 60

instance (wd h m s : ℕ) : Decidable (tw_claim_window wd h m s) := by
  unfold tw_claim_window
  infer_instance

/-! ### Daily history rows (fetch_twse_history_proxy / fetch_us_history) -/

/-- One row of the daily history list built by fetch_twse_history_proxy
(src/app.py lines 96-105) and fetch_us_history (lines 120-128): an ISO date
(encoded as a natural number preserving the date order), a share count and
the four prices. -/
structure DailyBar where
  date : ℕ
  volume : ℕ
  open_px : ℚ
  high : ℚ
  low : ℚ
  close : ℚ
deriving DecidableEq

/-- df_daily.iloc[-1]].close, with the 0 default never reached: the source
only reads it behind a non-empty check. -/
def last_close (daily : List DailyBar) : ℚ :=
  match daily.getLast? with
  | some b => b.close
  | none => 0

/-- df_daily.iloc[-2].close (second to last row). -/
def second_last_close (daily : List DailyBar) : ℚ :=
  match daily.dropLast.getLast? with
  | some b => b.close
  | none => 0

/-! ### TTL cache (st.cache_data wrappers, src/app.py lines 68, 112, 133)

The three fetchers catch every exception and return None, and are wrapped in
st.cache_data(ttl=...), which memoizes whatever value the wrapped function
returns -- including the None produced on failure.  cache_get embeds that
memoizer for one key: it returns the stored value while the entry is younger
than the ttl, and otherwise runs the wrapped body (whose outcome at this
instant is fetch_result) and stores its result.  The Bool records whether the
upstream body was invoked. -/

/-- One intraday bar: its calendar date (df.index.date) and close. -/
structure IBar where
  date : ℕ
  close : ℚ
deriving DecidableEq

/-- df.index[-1].date() of a 5-day frame. -/
def last_day (df : List IBar) : ℕ :=
  match df.getLast? with
  | some b => b.date
  | none => 0

/-- Embedding of get_intraday_chart_data: df1m is the period="1d"
interval="1m" frame, df5m the period="5d" interval="5m" frame; when the first
is empty the second is filtered down to its last calendar day, and an empty
frame becomes None. -/
def get_intraday_chart_data (df1m df5m : List IBar) : Option (List IBar) :=
  let df := if df1m.isEmpty then
      (if df5m.isEmpty then df5m
       else df5m.filter (fun b => b.date = last_day df5m))
    else df1m
  if df.isEmpty then none else some df

/-- The fields of twstock realtime data used by the script.  none encodes the
upstream dash sentinel for a price field; accumulate_trade_volume is the
lot-denominated count the TWSE realtime feed reports. -/
structure RealtimeInfo where
  latest_trade_price : Option ℚ
  open_px : Option ℚ
  high : Option ℚ
  low : Option ℚ
  accumulate_trade_volume : ℕ
deriving DecidableEq

/-- real_data price after the twstock block (lines 272-286): stays at the
initial 0 when the realtime call failed or reported no success; otherwise the
latest trade price, with the dash sentinel read as 0.0, and a zero latest
price replaced by the open field (dash read as 0.0 again). -/
def real_data_price (rt : Option RealtimeInfo) : ℚ :=
  match rt with
  | none => 0
  | some info =>
      let latest : ℚ := info.latest_trade_price.getD 0
      if latest = 0 then info.open_px.getD 0 else latest

/-- current_price after the fallback block (lines 315-317): the real_data
price, replaced by the last daily close when it is 0 (or None) and the daily
frame is non-empty. -/
def current_price_calc (p : ℚ) (daily : List DailyBar) : ℚ :=
  if p = 0 ∧ daily ≠ [] then last_close daily else p

/-- prev_close (lines 329-345).  is_yahoo selects the US-stock/index branch,
whose fast_prev is tk.fast_info.previous_close (none when the lookup raises);
the TW branch compares the last row date with today and otherwise both
branches pick rows by position. -/
def prev_close (is_yahoo : Bool) (fast_prev : Option ℚ)
    (daily : List DailyBar) (today : ℕ) : ℚ :=
  match daily.getLast? with
  | none => 0
  | some lastBar =>
      if is_yahoo then
        match fast_prev with
        | some pc => pc
        | none =>
            if 1 < daily.length then second_last_close daily else lastBar.close
      else
        if lastBar.date = today ∧ 1 < daily.length then second_last_close daily
        else lastBar.close

/-- Previous close as claim C1 and the spec word it: the close of the most
recent daily bar whose date is strictly before the current trading day
(the series is sorted ascending by date, so the most recent such bar is the
last one the filter keeps); stated for comparison with prev_close. -/
def prev_close_by_date (daily : List DailyBar) (today : ℕ) : Option ℚ :=
  ((daily.filter (fun b => b.date < today)).getLast?).map (fun b => b.close)

/-- change = current_price - prev_close (line 347). -/
def change (current prev : ℚ) : ℚ := current - prev

/-- pct = (change / prev_close) * 100 if prev_close != 0 else 0 (line 348). -/
def pct (current prev : ℚ) : ℚ :=
  if prev ≠ 0 then change current prev / prev * 100 else 0

/-- The values the script renders in the price card: current price, previous
close, and the derived change figures. -/
structure Display where
  price : ℚ
  prevClose : ℚ
  change_val : ℚ
  pct_val : ℚ
deriving DecidableEq

/-- The whole TW-stock data path of section 5 of the script, from the raw
realtime result (none when twstock failed or reported no success) and the
cached daily history result (none on fetch failure) to the rendered numbers.
There is no failure outcome: the script always renders a Display. -/
def pipeline_tw (rt : Option RealtimeInfo) (hist : Option (List DailyBar))
    (today : ℕ) : Display :=
  let daily := match hist with
    | some l => l
    | none => []
  let cp := current_price_calc (real_data_price rt) daily
  let pc := prev_close false none daily today
  ⟨cp, pc, change cp pc, pct cp pc⟩

/-- The current-price precedence chain exactly as claim C4 words it:
authoritative snapshot field, then the quote last price, then the last close
of the cutoff-filtered intraday series, then the last close of the daily
series, each skipped when absent; stated for comparison with the code. -/
def current_price_chain_spec (auth quote_last : Option ℚ)
    (intra daily : List ℚ) : Option ℚ :=
  match auth with
  | some v => some v
  | none =>
      match quote_last with
      | some v => some v
      | none =>
          match intra.getLast? with
          | some v => some v
          | none => daily.getLast?

/-! ### Volume display (lines 277-284 and 318-326) -/

/-- The number rendered in the volume cell when the daily fallback fires
(lines 321-326): the last daily row's share count, divided by 1000 for a TW
stock (int() of a whole-number float division is floor division here) and
taken as-is otherwise. -/
def volume_fallback_display (is_tw : Bool) (vol_num : ℕ) : ℕ :=
  if is_tw then vol_num / 1000 else vol_num

/-! ### VWAP (Metrics Calculator)

src/ contains no VWAP computation; the definitions below are modelled from
the spec, section 4.4. -/

/-- Modelled from the spec: one bar of the intraday series as the Metrics
Calculator reads it (high, low, close, volume).  The VWAP code itself is
missing from src/. -/
structure MBar where
  high : ℚ
  low : ℚ
  close : ℚ
  volume : ℚ
deriving DecidableEq

/-- Modelled from the spec: typical_price_i = (high_i + low_i + close_i) / 3. -/
def typical_price (b : MBar) : ℚ := (b.high + b.low + b.close) / 3

/-- Modelled from the spec: the total volume of a bar series. -/
def total_volume (bars : List MBar) : ℚ :=
  (bars.map (fun b => b.volume)).sum

/-- Modelled from the spec: the simple arithmetic mean of the closes. -/
def mean_close (bars : List MBar) : ℚ :=
  (bars.map (fun b => b.close)).sum / bars.length

/-- Modelled from the spec: VWAP is the volume-weighted mean of the typical
prices, falling back to the simple mean of closes when the total volume is
zero (the divide-by-zero guard the spec demands). -/
def vwap (bars : List MBar) : ℚ :=
  if total_volume bars = 0 then mean_close bars
  else (bars.map (fun b => typical_price b * b.volume)).sum / total_volume bars

/-! ## Theorems -/

/-- C1 (code bug): claim C1 says the reconciled previous close is always
selected by date comparison (latest daily bar with date strictly before the
current trading day) and never by fixed position.  The Yahoo branch of the
code (src/app.py lines 331-338) uses the second-to-last row with no date
check: with fast_info.previous_close unavailable and a daily series that is
one day behind (bars dated day 10 and day 11, today = day 12), the code
returns the day-10 close 90, while the date comparison the claim and spec
demand selects the day-11 close 100. -/
theorem prev_close_positional_bug :
    prev_close true none
      [⟨10, 1000, 90, 91, 89, 90⟩, ⟨11, 1000, 100, 101, 99, 100⟩] 12 = 90 ∧
    prev_close_by_date
      [⟨10, 1000, 90, 91, 89, 90⟩, ⟨11, 1000, 100, 101, 99, 100⟩] 12
      = some 100 := by
  decide

/-- C3 (counterexample): claim C3 says that when every source of the current
price and of the previous close is exhausted, reconciliation fails and the
caller sees Unavailable, never a snapshot with fabricated values such as a
zero price.  The code has no failure outcome: with the realtime quote failed
and the history fetch failed it renders a snapshot whose price and previous
close are the fabricated initial zeros. -/
theorem exhausted_sources_zero_price_cex :
    (pipeline_tw none none 20260101).price = 0 ∧
    (pipeline_tw none none 20260101).prevClose = 0 := by
  decide

/-- C3 (amended): when the realtime quote and the daily-history fetch both
fail, the TW pipeline still produces a rendered snapshot, with price 0,
previous close 0, change 0 and percent change 0, on every trading day. -/
theorem exhausted_sources_zero_display (today : ℕ) :
    pipeline_tw none none today = ⟨0, 0, 0, 0⟩ := by
  simp [pipeline_tw, current_price_calc, real_data_price, prev_close, change,
    pct]

/-- C4 (counterexample): claim C4 says the current price follows the chain
snapshot field, quote last price, intraday last close, daily last close, and
that no other source such as the opening price is substituted.  With the
quote last trade price at the dash sentinel, an intraday series closing at 45
and a daily series closing at 40, the code yields 50 — the quote open field,
substituted at lines 277-278 — a value the claimed chain (which yields 45
here) can never produce; the intraday series is not consulted at all. -/
theorem open_price_substituted_cex :
    current_price_calc (real_data_price (some ⟨none, some 50, none, none, 0⟩))
      [⟨11, 1000, 40, 41, 39, 40⟩] = 50 ∧
    current_price_chain_spec none none [45] [40] = some 45 := by
  decide

/-- C4 (amended): the full TW current-price chain of the code.  A nonzero
quote last trade price is taken as-is; when the last trade price is absent
(the dash sentinel) or zero, a nonzero quote open field is substituted —
today's opening price enters the chain; when the chain result is still zero
(sentinel or zero on both quote fields, or the realtime call failed), a
non-empty daily series supplies its last close, and an empty one leaves the
fabricated 0.  The embedded price path takes no intraday input at all. -/
theorem tw_current_price_chain (rt : Option RealtimeInfo)
    (daily : List DailyBar) :
    (∀ info v, rt = some info → info.latest_trade_price = some v → v ≠ 0 →
        current_price_calc (real_data_price rt) daily = v) ∧
    (∀ info w, rt = some info →
        (info.latest_trade_price = none ∨ info.latest_trade_price = some 0) →
        info.open_px = some w → w ≠ 0 →
        current_price_calc (real_data_price rt) daily = w) ∧
    (real_data_price rt = 0 → daily ≠ [] →
        current_price_calc (real_data_price rt) daily = last_close daily) ∧
    (real_data_price rt = 0 → daily = [] →
        current_price_calc (real_data_price rt) daily = 0) := by
  refine ⟨?_, ?_, ?_, ?_⟩
  · intro info v hrt hv hne
    subst hrt
    simp [real_data_price, current_price_calc, hv, hne]
  · intro info w hrt h1 h2 hne
    subst hrt
    have hp : real_data_price (some info) = w := by
      rcases h1 with h1 | h1 <;> simp [real_data_price, h1, h2]
    rw [hp]
    simp [current_price_calc, hne]
  · intro h0 hne
    rw [h0]
    simp [current_price_calc, hne]
  · intro h0 hd
    rw [h0, hd]
    simp [current_price_calc]

/-- C4 (witness): the chain theorem at concrete inputs — a valid last trade
price 123 is kept, the dash sentinel is replaced by the open 50 even though
the daily series closes at 40, and a failed realtime call falls through to
the last daily close. -/
theorem tw_current_price_chain_witness :
    current_price_calc (real_data_price (some ⟨some 123, some 50, none, none, 0⟩))
      [⟨11, 1000, 40, 41, 39, 40⟩] = 123 ∧
    current_price_calc (real_data_price (some ⟨none, some 50, none, none, 0⟩))
      [⟨11, 1000, 40, 41, 39, 40⟩] = 50 ∧
    current_price_calc (real_data_price none) [⟨11, 1000, 40, 41, 39, 40⟩]
      = last_close [⟨11, 1000, 40, 41, 39, 40⟩] :=
  ⟨(tw_current_price_chain (some ⟨some 123, some 50, none, none, 0⟩)
      [⟨11, 1000, 40, 41, 39, 40⟩]).1 ⟨some 123, some 50, none, none, 0⟩ 123
      rfl rfl (by norm_num),
    (tw_current_price_chain (some ⟨none, some 50, none, none, 0⟩)
      [⟨11, 1000, 40, 41, 39, 40⟩]).2.1 ⟨none, some 50, none, none, 0⟩ 50 rfl
      (Or.inl rfl) rfl (by norm_num),
    (tw_current_price_chain none [⟨11, 1000, 40, 41, 39, 40⟩]).2.2.1 rfl
      (by simp)⟩

/-- C5 (counterexample): claim C5 says every Saturday or Sunday timestamp
yields CLOSED for both markets.  weekday 5 is Saturday; at Saturday 22:00
Asia/Taipei (still Saturday in US local time) the US branch — which never
looks at the weekday — reports the market open. -/
theorem us_weekend_open_cex :
    check_market_status Market.US 5 22 0 0 = SessionStatus.open_status ∧
    check_market_status Market.US 5 22 0 0 ≠ SessionStatus.closed_status := by
  decide

/-- C5 (amended): weekends are always CLOSED for market TW, while the US
branch ignores the weekday entirely: its result is unchanged under any change
of weekday. -/
theorem weekend_behavior (wd h m s wd2 : ℕ) (hw : 5 ≤ wd) :
    check_market_status Market.TW wd h m s = SessionStatus.closed_status ∧
    check_market_status Market.US wd h m s
      = check_market_status Market.US wd2 h m s := by
  exact ⟨by simp [check_market_status, hw], rfl⟩

/-- C5 (witness): the amended weekend theorem at Saturday 10:00. -/
theorem weekend_behavior_witness :
    check_market_status Market.TW 5 10 0 0 = SessionStatus.closed_status ∧
    check_market_status Market.US 5 10 0 0
      = check_market_status Market.US 6 10 0 0 :=
  weekend_behavior 5 10 0 0 6 (by norm_num)

/-- C6 (counterexample): claim C6 says the TW session is OPEN exactly on
weekdays within 09:00-13:30.  At Tuesday (weekday 1) 13:33 the claimed window
is over, yet the code — whose close time is dt_time(13, 35) — still reports
OPEN. -/
theorem tw_open_outside_claimed_window_cex :
    check_market_status Market.TW 1 13 33 0 = SessionStatus.open_status ∧
    ¬ tw_claim_window 1 13 33 0 := by
  decide

/-- C6 (amended): the TW session is OPEN exactly when the weekday is Monday
to Friday and the local time lies within 09:00-13:35 inclusive (the code
folds the 13:30-13:35 after-close window into the open state); the three
example points of the claim — Saturday 10:00 CLOSED, Tuesday 10:00 OPEN,
Tuesday 14:00 CLOSED — all hold. -/
theorem tw_window_0900_1335 :
    (∀ wd h m s : ℕ,
        check_market_status Market.TW wd h m s = SessionStatus.open_status ↔
          (wd < 5 ∧ 9 * 3600 ≤ h * 3600 + m * 60 + s ∧
            h * 3600 + m * 60 + s ≤ 13 * 3600 + 35 * 60)) ∧
    check_market_status Market.TW 5 10 0 0 = SessionStatus.closed_status ∧
    check_market_status Market.TW 1 10 0 0 = SessionStatus.open_status ∧
    check_market_status Market.TW 1 14 0 0 = SessionStatus.closed_status := by
  refine ⟨?_, by decide, by decide, by decide⟩
  intro wd h m s
  simp only [check_market_status]
  split_ifs with hw ht
  all_goals simp_all

/-- C7 (confirmed, modelled from the spec): for every bar series whose total
volume is zero, VWAP is the simple arithmetic mean of the closes — the
division by the total volume is never taken with a zero divisor. -/
theorem vwap_zero_volume (bars : List MBar) (h : total_volume bars = 0) :
    vwap bars = (bars.map (fun b => b.close)).sum / bars.length := by
  simp [vwap, h, mean_close]

/-- C7 (witness): a two-bar series of zero volume, closes 6 and 8; its VWAP
is their mean 7. -/
theorem vwap_zero_volume_witness :
    vwap [⟨10, 5, 6, 0⟩, ⟨9, 4, 8, 0⟩] = 7 := by
  rw [vwap_zero_volume [⟨10, 5, 6, 0⟩, ⟨9, 4, 8, 0⟩] (by simp [total_volume])]
  norm_num

/-- C8 (confirmed): the displayed change is exactly current minus previous
close, and the displayed percent change is change divided by the previous
close times 100 when the previous close is nonzero, and 0 when it is zero —
the branch structure of pct never divides by a zero previous close. -/
theorem change_pct_formulas (c p : ℚ) :
    change c p = c - p ∧ (p ≠ 0 → pct c p = (c - p) / p * 100) ∧
    (p = 0 → pct c p = 0) := by
  refine ⟨rfl, fun h => ?_, fun h => ?_⟩ <;> simp [pct, change, h]

/-- C8 (witness): the change formulas at current 105, previous close 100. -/
theorem change_pct_formulas_witness :
    change 105 100 = 5 ∧ pct 105 100 = 5 := by
  obtain ⟨h1, h2, -⟩ := change_pct_formulas 105 100
  refine ⟨by rw [h1]; norm_num, ?_⟩
  rw [h2 (by norm_num)]
  norm_num

/-- C9 (counterexample): claim C9 says the reconciled volume is expressed in
shares whatever source supplied it.  When the TW daily fallback fires with a
share count of 5000, the code divides by 1000 and renders 5 — the value is
lot-denominated, not the 5000 shares the claim requires. -/
theorem tw_volume_lots_cex :
    volume_fallback_display true 5000 ≠ 5000 ∧
    volume_fallback_display true 5000 = 5 := by
  decide

/-- C9 (amended): the volume cell is normalized per market to the market
display unit, lots for TW and shares for US: the TW figure is the share count
floor-divided by the 1000-share lot size (so multiplying it back by 1000
recovers the share count up to one lot), and the US figure is the raw share
count. -/
theorem volume_market_unit (v : ℕ) :
    1000 * volume_fallback_display true v ≤ v ∧
    v < 1000 * volume_fallback_display true v + 1000 ∧
    volume_fallback_display false v = v := by
  have h1 : volume_fallback_display true v = v / 1000 := rfl
  rw [h1]
  exact ⟨by omega, by omega, rfl⟩

/-- Helper: the last bar of a non-empty five-day frame survives the
last-day filter. -/
theorem intraday_filter_keeps_last (df5m : List IBar) (h5 : df5m ≠ []) :
    df5m.getLast h5 ∈ df5m.filter (fun b => b.date = last_day df5m) := by
  refine List.mem_filter.mpr ⟨List.getLast_mem h5, ?_⟩
  simp [last_day, List.getLast?_eq_getLast _ h5]

theorem intraday_fallback_filter (df5m : List IBar) (h5 : df5m ≠ []) :
    get_intraday_chart_data [] df5m
      = some (df5m.filter (fun b => b.date = last_day df5m)) := by
  have hne : df5m.filter (fun b => b.date = last_day df5m) ≠ [] :=
    List.ne_nil_of_mem (intraday_filter_keeps_last df5m h5)
  unfold get_intraday_chart_data
  simp [h5, hne]

theorem intraday_nonempty_passthrough (df1m df5m : List IBar)
    (h1 : df1m ≠ []) :
    get_intraday_chart_data df1m df5m = some df1m := by
  unfold get_intraday_chart_data
  simp [h1]

/-- C10 (confirmed): provided the one-day one-minute frame honours its
period="1d" contract (all its bars on one calendar day d1), every non-None
result of get_intraday_chart_data is a non-empty series lying on a single
calendar day; when the one-day frame is empty and the five-day frame is not,
the result is the five-day frame filtered to its last available day; and when
both frames are empty the result is None, never an empty series. -/
theorem intraday_single_day (df1m df5m : List IBar) (d1 : ℕ)
    (h1 : ∀ b ∈ df1m, b.date = d1) :
    (∀ s, get_intraday_chart_data df1m df5m = some s →
        s ≠ [] ∧ ∃ d, ∀ b ∈ s, b.date = d) ∧
    (df1m = [] → df5m ≠ [] →
        get_intraday_chart_data df1m df5m
          = some (df5m.filter (fun b => b.date = last_day df5m))) ∧
    (df1m = [] → df5m = [] → get_intraday_chart_data df1m df5m = none) := by
  refine ⟨?_, ?_, ?_⟩
  · intro s hs
    by_cases h1e : df1m = []
    · subst h1e
      by_cases h5e : df5m = []
      · subst h5e
        simp [get_intraday_chart_data] at hs
      · rw [intraday_fallback_filter df5m h5e] at hs
        obtain rfl := Option.some.inj hs
        refine ⟨List.ne_nil_of_mem (intraday_filter_keeps_last df5m h5e),
          last_day df5m, ?_⟩
        intro b hb
        exact of_decide_eq_true (List.mem_filter.mp hb).2
    · rw [intraday_nonempty_passthrough df1m df5m h1e] at hs
      obtain rfl := Option.some.inj hs
      exact ⟨h1e, d1, h1⟩
  · intro he h5
    subst he
    exact intraday_fallback_filter df5m h5
  · intro he h5
    subst he
    subst h5
    rfl

/-- C10 (witness): the single-day theorem applied with an empty one-minute
frame and a two-day five-minute frame; the result is the last day alone. -/
theorem intraday_single_day_witness :
    get_intraday_chart_data ([] : List IBar) [⟨1, 10⟩, ⟨2, 20⟩]
      = some ([⟨1, 10⟩, ⟨2, 20⟩].filter
          (fun b => b.date = last_day [⟨1, 10⟩, ⟨2, 20⟩])) :=
  (intraday_single_day [] [⟨1, 10⟩, ⟨2, 20⟩] 0 (by simp)).2.1 rfl (by simp)

end StockApp
